import Mathlib

/-!
Verification of the operation-dispatch layer of hub-kms
(`pkg/restapi/kms/operation/operations.go`), shallowly embedded in Lean.

The Go handlers are modelled as total functions from the per-request
environment (outcomes of the storage, key-manager-constructor and crypto
capabilities, plus the response writer's behaviour) to a trace of
response-writer events together with a record of which capabilities the
handler invoked.  Machine bytes are `Nat` values below 256; Go errors are
carried as their message strings, with the `errors.Is(err,
kmsservice.ErrInvalidSignature)` test modelled as a boolean field on the
error value.
-/

set_option autoImplicit false

/-! ### Go string replacement (`strings.ReplaceAll`, `strings.NewReplacer`) -/

/-- Model of `strings.ReplaceAll` on character lists: scan left to right,
replace each non-overlapping occurrence of `old` by `new`, never rescanning
replaced text.  `fuel` bounds the recursion; callers pass the length of `s`,
which suffices because every step consumes at least one character of `s`. -/
def replaceAllFuel : Nat → List Char → List Char → List Char → List Char
  | 0, s, _, _ => s
  | _ + 1, [], _, _ => []
  | fuel + 1, c :: rest, old, new =>
    if old ≠ [] ∧ old.isPrefixOf (c :: rest) then
      new ++ replaceAllFuel fuel ((c :: rest).drop old.length) old new
    else
      c :: replaceAllFuel fuel rest old new

/-- `strings.ReplaceAll(s, old, new)` on Lean strings. -/
def goReplaceAll (s old new : String) : String :=
  ⟨replaceAllFuel s.data.length s.data old.data new.data⟩

/-- Model of a two-pattern `strings.NewReplacer(o1, n1, o2, n2).Replace`:
single left-to-right pass over the original text, first matching pattern
wins, replacements are not rescanned. -/
def replacer2Fuel : Nat → List Char → List Char → List Char → List Char → List Char → List Char
  | 0, s, _, _, _, _ => s
  | _ + 1, [], _, _, _, _ => []
  | fuel + 1, c :: rest, o1, n1, o2, n2 =>
    if o1 ≠ [] ∧ o1.isPrefixOf (c :: rest) then
      n1 ++ replacer2Fuel fuel ((c :: rest).drop o1.length) o1 n1 o2 n2
    else if o2 ≠ [] ∧ o2.isPrefixOf (c :: rest) then
      n2 ++ replacer2Fuel fuel ((c :: rest).drop o2.length) o1 n1 o2 n2
    else
      c :: replacer2Fuel fuel rest o1 n1 o2 n2

/-- Two-pattern `strings.Replacer` on Lean strings. -/
def goReplacer2 (s o1 n1 o2 n2 : String) : String :=
  ⟨replacer2Fuel s.data.length s.data o1.data n1.data o2.data n2.data⟩

/-! ### API endpoint constants (operations.go, `const` block) -/

/-- `kmsBasePath = "/kms"`. -/
def kmsBasePath : String := "/kms"

/-- `keystoresEndpoint = kmsBasePath + "/keystores"`. -/
def keystoresEndpoint : String := kmsBasePath ++ "/keystores"

/-- `keystoreEndpoint = keystoresEndpoint + "/{keystoreID}"`. -/
def keystoreEndpoint : String := keystoresEndpoint ++ "/\x7bkeystoreID\x7d"

/-- `keysEndpoint = keystoreEndpoint + "/keys"`. -/
def keysEndpoint : String := keystoreEndpoint ++ "/keys"

/-- `keyEndpoint = keysEndpoint + "/{keyID}"`. -/
def keyEndpoint : String := keysEndpoint ++ "/\x7bkeyID\x7d"

/-! ### Error message constants (operations.go, `const` block); each Go
format string `"...: %s"` becomes a function of the error text. -/

/-- `receivedBadRequest = "Received bad request: %s"`. -/
def receivedBadRequest (e : String) : String := "Received bad request: " ++ e

/-- `createKeystoreFailure = "Failed to create a keystore: %s"`. -/
def createKeystoreFailure (e : String) : String := "Failed to create a keystore: " ++ e

/-- `createKMSProviderFailure = "Failed to create a kms provider: %s"`. -/
def createKMSProviderFailure (e : String) : String := "Failed to create a kms provider: " ++ e

/-- `createKeyFailure = "Failed to create a key: %s"`. -/
def createKeyFailure (e : String) : String := "Failed to create a key: " ++ e

/-- `signMessageFailure = "Failed to sign a message: %s"`. -/
def signMessageFailure (e : String) : String := "Failed to sign a message: " ++ e

/-- `verifyMessageFailure = "Failed to verify a message: %s"`. -/
def verifyMessageFailure (e : String) : String := "Failed to verify a message: " ++ e

/-- `encryptMessageFailure = "Failed to encrypt a message: %s"`. -/
def encryptMessageFailure (e : String) : String := "Failed to encrypt a message: " ++ e

/-- `decryptMessageFailure = "Failed to decrypt a message: %s"`. -/
def decryptMessageFailure (e : String) : String := "Failed to decrypt a message: " ++ e

/-! ### Location headers (operations.go, `keystoreLocation` / `keyLocation`) -/

/-- `keystoreLocation(hostURL, keystoreID)`: `fmt.Sprintf("%s%s", hostURL,
strings.ReplaceAll(keystoreEndpoint, "{keystoreID}", keystoreID))`. -/
def keystoreLocation (hostURL keystoreID : String) : String :=
  hostURL ++ goReplaceAll keystoreEndpoint "\x7bkeystoreID\x7d" keystoreID

/-- `keyLocation(hostURL, keystoreID, keyID)`: the two-pattern replacer over
`keyEndpoint` applied after the host. -/
def keyLocation (hostURL keystoreID keyID : String) : String :=
  hostURL ++ goReplacer2 keyEndpoint "\x7bkeystoreID\x7d" keystoreID "\x7bkeyID\x7d" keyID

theorem keystoreLocation_eq (host ksID : String) :
    keystoreLocation host ksID = host ++ "/kms/keystores/" ++ ksID := by
  apply String.ext
  simp [keystoreLocation, goReplaceAll, keystoreEndpoint, keystoresEndpoint, kmsBasePath,
    replaceAllFuel, List.isPrefixOf, String.data_append, List.append_assoc]

theorem keyLocation_eq (host ksID kID : String) :
    keyLocation host ksID kID = host ++ "/kms/keystores/" ++ ksID ++ "/keys/" ++ kID := by
  apply String.ext
  simp [keyLocation, goReplacer2, keyEndpoint, keysEndpoint, keystoreEndpoint,
    keystoresEndpoint, kmsBasePath, replacer2Fuel, List.isPrefixOf, String.data_append,
    List.append_assoc]

/-! ### Go `encoding/base64` URLEncoding (padded URL-safe alphabet).

Modelled from the Go standard library as used by operations.go:
`base64.URLEncoding.EncodeToString` and `base64.URLEncoding.DecodeString`.
Bytes are `Nat` values below 256.  Go reports decode failures as
`CorruptInputError` ("illegal base64 data at input byte N"); the model
carries the message without the byte offset. -/

/-- The URL-safe base64 alphabet (`encodeURL` in encoding/base64). -/
def b64Alphabet : List Char :=
  "ABCDEFGHIJKLMNOPQRSTUVWXYZabcdefghijklmnopqrstuvwxyz0123456789-_".data

/-- Character at index `i` of the alphabet (encode table lookup). -/
def alphaChar (i : Nat) : Char := b64Alphabet.getD i 'A'

/-- Index of a character in a character list, leftmost first. -/
def charIdxAux : List Char → Char → Option Nat
  | [], _ => none
  | a :: rest, c => if a = c then some 0 else (charIdxAux rest c).map (· + 1)

/-- Decode table: the alphabet index of `c`, or `none` for characters
outside the URL-safe alphabet (including `+`, `/` and `=`). -/
def charIdx (c : Char) : Option Nat := charIdxAux b64Alphabet c

/-- The decode error text of Go `base64.CorruptInputError`. -/
def illegalB64 : String := "illegal base64 data at input byte"

/-- One full 3-byte encode quantum. -/
def b64Chunk3 (b0 b1 b2 : Nat) : List Char :=
  [alphaChar (b0 / 4), alphaChar ((b0 % 4) * 16 + b1 / 16),
   alphaChar ((b1 % 16) * 4 + b2 / 64), alphaChar (b2 % 64)]

/-- `base64.URLEncoding.EncodeToString` on byte lists: 3 bytes map to 4
alphabet characters; a final 1- or 2-byte remainder is padded with `=`. -/
def b64EncodeBytes : List Nat → List Char
  | [] => []
  | [b0] => [alphaChar (b0 / 4), alphaChar ((b0 % 4) * 16), '=', '=']
  | [b0, b1] => [alphaChar (b0 / 4), alphaChar ((b0 % 4) * 16 + b1 / 16),
                 alphaChar ((b1 % 16) * 4), '=']
  | b0 :: b1 :: b2 :: rest => b64Chunk3 b0 b1 b2 ++ b64EncodeBytes rest

/-- `base64.URLEncoding.EncodeToString`. -/
def b64Encode (bs : List Nat) : String := ⟨b64EncodeBytes bs⟩

/-- Decode one 4-character quantum of newline-free input.  `isLast` tells
whether this quantum ends the input; `=` padding is legal only there, only
in the last one or two positions, and `xx=c` (padding followed by a
non-padding character) is rejected — Go's `decodeQuantum` after its `\r`
and `\n` skipping (handled in `b64Decode`) is factored out. -/
def b64DecodeQuantum (isLast : Bool) (c0 c1 c2 c3 : Char) : Except String (List Nat) :=
  match charIdx c0, charIdx c1 with
  | some x0, some x1 =>
    match charIdx c2 with
    | some x2 =>
      match charIdx c3 with
      | some x3 => .ok [x0 * 4 + x1 / 16, (x1 % 16) * 16 + x2 / 4, (x2 % 4) * 64 + x3]
      | none =>
        if c3 = '=' ∧ isLast then .ok [x0 * 4 + x1 / 16, (x1 % 16) * 16 + x2 / 4]
        else .error illegalB64
    | none =>
      if c2 = '=' ∧ c3 = '=' ∧ isLast then .ok [x0 * 4 + x1 / 16]
      else .error illegalB64
  | _, _ => .error illegalB64

/-- `base64.URLEncoding.DecodeString` on newline-free character lists: the
input is consumed in 4-character quantums; a trailing fragment of 1–3
characters is a length error. -/
def b64DecodeChars : List Char → Except String (List Nat)
  | [] => .ok []
  | c0 :: c1 :: c2 :: c3 :: rest =>
    match b64DecodeQuantum rest.isEmpty c0 c1 c2 c3 with
    | .ok bs =>
      match b64DecodeChars rest with
      | .ok more => .ok (bs ++ more)
      | .error e => .error e
    | .error e => .error e
  | _ => .error illegalB64

/-- The characters Go's base64 decoder skips: `\r` and `\n`. -/
def isB64Newline (c : Char) : Bool := c = '\n' || c = '\r'

/-- `base64.URLEncoding.DecodeString`: Go ignores `\r` and `\n` wherever
they appear (`decodeQuantum` skips them between digits, inside the padding,
and after it; any other character after the padding is trailing garbage),
so decoding is: drop the newline characters, then consume strict
4-character quantums. -/
def b64Decode (s : String) : Except String (List Nat) :=
  b64DecodeChars (s.data.filter (fun c => !isB64Newline c))

/-! ### Response writer model.

An `http.ResponseWriter` interaction is a trace of events: header set,
status write, one JSON-encode attempt (which can fail when the transport
is closed), and logger output.  `writeErr` is the error the writer's
`Write` would return (`none` when writing succeeds). -/

/-- JSON payloads handed to `json.NewEncoder(rw).Encode` by operations.go:
`errorResponse`, `signResp`, `encryptResp`, `decryptResp` (models.go is not
under src/; the payload shapes follow the handlers' composite literals). -/
inductive JSONBody where
  | errorMsg (msg : String)
  | signatureResp (signature : String)
  | encryptResp (cipherText nonce : String)
  | decryptResp (plainText : String)
deriving DecidableEq, Repr

/-- One response-writer or logger event. -/
inductive RWEvent where
  | setHeader (name value : String)
  | writeHeader (status : Nat)
  | encodeJSON (body : JSONBody) (writeErr : Option String)
  | logError (msg : String)
deriving DecidableEq, Repr

/-- `writeErrorResponse(rw, status, msg)`: write the status, attempt to
encode `{"errMessage": msg}`, and on encoder failure log
`"Unable to send an error message, %s"` — nothing else. -/
def writeErrorResponse (writeErr : Option String) (status : Nat) (msg : String) :
    List RWEvent :=
  [.writeHeader status, .encodeJSON (.errorMsg msg) writeErr] ++
    match writeErr with
    | none => []
    | some e => [.logError ("Unable to send an error message, " ++ e)]

/-- `writeResponse(rw, v)`: attempt to encode the success payload (Go
writes the implicit 200 on the first body byte), and on encoder failure log
`"Unable to send a response, %s"`. -/
def writeResponse (writeErr : Option String) (body : JSONBody) : List RWEvent :=
  [.encodeJSON body writeErr] ++
    match writeErr with
    | none => []
    | some e => [.logError ("Unable to send a response, " ++ e)]

/-- HTTP status of a trace: the first explicitly written status, or the
implicit 200 Go sends when a body (or nothing) is written first. -/
def respStatus : List RWEvent → Nat
  | [] => 200
  | .writeHeader s :: _ => s
  | .encodeJSON _ _ :: _ => 200
  | _ :: rest => respStatus rest

/-- The successfully written response body of a trace, if any. -/
def respBody : List RWEvent → Option JSONBody
  | [] => none
  | .encodeJSON b none :: _ => some b
  | .encodeJSON _ (some _) :: _ => none
  | _ :: rest => respBody rest

/-- The value of the Location header set by a trace, if any. -/
def respLocation : List RWEvent → Option String
  | [] => none
  | .setHeader "Location" v :: _ => some v
  | _ :: rest => respLocation rest

/-! ### Capabilities and per-request environment -/

/-- `KMSCreatorContext` (operations.go): the argument of the injected
key-manager constructor. -/
structure KMSCreatorContext where
  keystoreID : String
  passphrase : String
deriving DecidableEq, Repr

/-- A Go error as seen by the dispatcher: its message text, together with
whether `errors.Is(err, kmsservice.ErrInvalidSignature)` holds for it. -/
structure GoError where
  text : String
  isInvalidSignature : Bool
deriving DecidableEq, Repr

/-- Which collaborator capabilities a handler invoked during one request:
how often `keystore.NewRepository` ran, the contexts passed to the
`KMSCreator` capability, the controllers passed to the keystore service's
`Create`, and how many `kmsservice` capability calls (CreateKey / Sign /
Verify / Encrypt / Decrypt) were made. -/
structure Calls where
  newRepository : Nat
  kmsCreator : List KMSCreatorContext
  keystoreCreate : List String
  service : Nat
deriving DecidableEq, Repr

/-- No capability invoked. -/
def noCalls : Calls := ⟨0, [], [], 0⟩

/-- Per-request environment: outcome of `keystore.NewRepository` over the
storage provider, outcome of the injected `KMSCreator` as a function of its
context, and the response writer's `Write` error. -/
structure Env where
  repoErr : Option String
  creatorErr : KMSCreatorContext → Option String
  writeErr : Option String

/-- Result of running one handler: the writer/logger trace and the record
of capability invocations. -/
structure HandlerRun where
  events : List RWEvent
  calls : Calls

/-! ### Request DTOs.

Modelled from the spec: models.go is not under src/, so the request DTO
field sets are reconstructed from the handlers' field accesses in
operations.go (`request.Controller`, `request.Passphrase`, …) and the §6
wire contract; Go's encoding/json leaves an absent string field at its zero
value, the empty string. -/

structure CreateKeystoreReq where
  controller : String
deriving DecidableEq, Repr

structure CreateKeyReq where
  keyType : String
  passphrase : String
deriving DecidableEq, Repr

structure SignReq where
  message : String
  passphrase : String
deriving DecidableEq, Repr

structure VerifyReq where
  signature : String
  message : String
  passphrase : String
deriving DecidableEq, Repr

structure EncryptReq where
  message : String
  aad : String
  passphrase : String
deriving DecidableEq, Repr

structure DecryptReq where
  cipherText : String
  aad : String
  nonce : String
  passphrase : String
deriving DecidableEq, Repr

/-- Modelled from the spec: Go's encoding/json decodes an absent string
field of a DTO to the zero value `""`. -/
def goStringField (f : Option String) : String := f.getD ""

/-! ### Handlers (operations.go).

Each handler takes the parse outcome of its request body (the result of
`parseRequest`'s `json.Decode`), the mux path variables, the per-request
environment, and the outcome the invoked `kmsservice` / keystore-service
capability would return; it produces the writer trace and call record by
direct transliteration of the Go control flow. -/

/-- `prepareKMSProvider(rw, provider, keystoreID, passphrase)`: open the
keystore repository, then invoke the `KMSCreator` with
`{KeystoreID, Passphrase}`; on either failure write a 500
`createKMSProviderFailure` response and return nil.  The model returns the
error trace (if any) together with the `NewRepository` count and the
creator contexts invoked. -/
def prepareKMSProvider (env : Env) (keystoreID passphrase : String) :
    Option (List RWEvent) × Nat × List KMSCreatorContext :=
  match env.repoErr with
  | some e => (some (writeErrorResponse env.writeErr 500 (createKMSProviderFailure e)), 1, [])
  | none =>
    let ctx : KMSCreatorContext := ⟨keystoreID, passphrase⟩
    match env.creatorErr ctx with
    | some e =>
      (some (writeErrorResponse env.writeErr 500 (createKMSProviderFailure e)), 1, [ctx])
    | none => (none, 1, [ctx])

/-- `createKeystoreHandler`: parse, open the repository, call the keystore
service's `Create(request.Controller)`, and on success set the Location
header to `keystoreLocation(req.Host, keystoreID)` and write 201.
`createRes` is the outcome of `srv.Create` as a function of the controller
passed. -/
def createKeystoreHandler (env : Env) (parse : Except String CreateKeystoreReq)
    (host : String) (createRes : String → Except String String) : HandlerRun :=
  match parse with
  | .error e => ⟨writeErrorResponse env.writeErr 400 (receivedBadRequest e), noCalls⟩
  | .ok request =>
    match env.repoErr with
    | some e =>
      ⟨writeErrorResponse env.writeErr 500 (createKeystoreFailure e), ⟨1, [], [], 0⟩⟩
    | none =>
      match createRes request.controller with
      | .error e =>
        ⟨writeErrorResponse env.writeErr 500 (createKeystoreFailure e),
         ⟨1, [], [request.controller], 0⟩⟩
      | .ok keystoreID =>
        ⟨[.setHeader "Location" (keystoreLocation host keystoreID), .writeHeader 201],
         ⟨1, [], [request.controller], 0⟩⟩

/-- `createKeyHandler`: parse, provision, call `srv.CreateKey(keystoreID,
keyType)`, and on success set the Location header to
`keyLocation(req.Host, keystoreID, keyID)` and write 201. -/
def createKeyHandler (env : Env) (parse : Except String CreateKeyReq)
    (keystoreID host : String) (createKeyRes : Except String String) : HandlerRun :=
  match parse with
  | .error e => ⟨writeErrorResponse env.writeErr 400 (receivedBadRequest e), noCalls⟩
  | .ok request =>
    match prepareKMSProvider env keystoreID request.passphrase with
    | (some evs, n, ks) => ⟨evs, ⟨n, ks, [], 0⟩⟩
    | (none, n, ks) =>
      match createKeyRes with
      | .error e =>
        ⟨writeErrorResponse env.writeErr 500 (createKeyFailure e), ⟨n, ks, [], 1⟩⟩
      | .ok keyID =>
        ⟨[.setHeader "Location" (keyLocation host keystoreID keyID), .writeHeader 201],
         ⟨n, ks, [], 1⟩⟩

/-- `signHandler`: parse, provision, call `srv.Sign`, and on success write
`signResp{Signature: base64.URLEncoding.EncodeToString(signature)}`. -/
def signHandler (env : Env) (parse : Except String SignReq)
    (keystoreID keyID : String) (signRes : Except String (List Nat)) : HandlerRun :=
  match parse with
  | .error e => ⟨writeErrorResponse env.writeErr 400 (receivedBadRequest e), noCalls⟩
  | .ok request =>
    match prepareKMSProvider env keystoreID request.passphrase with
    | (some evs, n, ks) => ⟨evs, ⟨n, ks, [], 0⟩⟩
    | (none, n, ks) =>
      match signRes with
      | .error e =>
        ⟨writeErrorResponse env.writeErr 500 (signMessageFailure e), ⟨n, ks, [], 1⟩⟩
      | .ok signature =>
        ⟨writeResponse env.writeErr (.signatureResp (b64Encode signature)), ⟨n, ks, [], 1⟩⟩

/-- `verifyHandler`: parse, provision, base64-decode `request.Signature`
(400 on decode error), call `srv.Verify`; a verify error that satisfies
`errors.Is(err, kmsservice.ErrInvalidSignature)` is written with status
200, any other verify error with status 500, both via
`verifyMessageFailure`; on success only `WriteHeader(200)` runs. -/
def verifyHandler (env : Env) (parse : Except String VerifyReq)
    (keystoreID keyID : String) (verifyRes : Option GoError) : HandlerRun :=
  match parse with
  | .error e => ⟨writeErrorResponse env.writeErr 400 (receivedBadRequest e), noCalls⟩
  | .ok request =>
    match prepareKMSProvider env keystoreID request.passphrase with
    | (some evs, n, ks) => ⟨evs, ⟨n, ks, [], 0⟩⟩
    | (none, n, ks) =>
      match b64Decode request.signature with
      | .error e =>
        ⟨writeErrorResponse env.writeErr 400 (receivedBadRequest e), ⟨n, ks, [], 0⟩⟩
      | .ok _ =>
        match verifyRes with
        | some err =>
          ⟨writeErrorResponse env.writeErr
            (if err.isInvalidSignature then 200 else 500)
            (verifyMessageFailure err.text), ⟨n, ks, [], 1⟩⟩
        | none => ⟨[.writeHeader 200], ⟨n, ks, [], 1⟩⟩

/-- `encryptHandler`: parse, provision, call `srv.Encrypt`, and on success
write `encryptResp` with base64url cipher text and nonce. -/
def encryptHandler (env : Env) (parse : Except String EncryptReq)
    (keystoreID keyID : String) (encryptRes : Except String (List Nat × List Nat)) :
    HandlerRun :=
  match parse with
  | .error e => ⟨writeErrorResponse env.writeErr 400 (receivedBadRequest e), noCalls⟩
  | .ok request =>
    match prepareKMSProvider env keystoreID request.passphrase with
    | (some evs, n, ks) => ⟨evs, ⟨n, ks, [], 0⟩⟩
    | (none, n, ks) =>
      match encryptRes with
      | .error e =>
        ⟨writeErrorResponse env.writeErr 500 (encryptMessageFailure e), ⟨n, ks, [], 1⟩⟩
      | .ok (cipherText, nonce) =>
        ⟨writeResponse env.writeErr
          (.encryptResp (b64Encode cipherText) (b64Encode nonce)), ⟨n, ks, [], 1⟩⟩

/-- `decryptHandler`: parse, provision, base64-decode `request.CipherText`
then `request.Nonce` (400 with the decode error text on either failure,
before the service runs), call `srv.Decrypt`, and on success write
`decryptResp{PlainText: string(plainText)}`. -/
def decryptHandler (env : Env) (parse : Except String DecryptReq)
    (keystoreID keyID : String) (decryptRes : Except String String) : HandlerRun :=
  match parse with
  | .error e => ⟨writeErrorResponse env.writeErr 400 (receivedBadRequest e), noCalls⟩
  | .ok request =>
    match prepareKMSProvider env keystoreID request.passphrase with
    | (some evs, n, ks) => ⟨evs, ⟨n, ks, [], 0⟩⟩
    | (none, n, ks) =>
      match b64Decode request.cipherText with
      | .error e =>
        ⟨writeErrorResponse env.writeErr 400 (receivedBadRequest e), ⟨n, ks, [], 0⟩⟩
      | .ok _ =>
        match b64Decode request.nonce with
        | .error e =>
          ⟨writeErrorResponse env.writeErr 400 (receivedBadRequest e), ⟨n, ks, [], 0⟩⟩
        | .ok _ =>
          match decryptRes with
          | .error e =>
            ⟨writeErrorResponse env.writeErr 500 (decryptMessageFailure e), ⟨n, ks, [], 1⟩⟩
          | .ok plainText =>
            ⟨writeResponse env.writeErr (.decryptResp plainText), ⟨n, ks, [], 1⟩⟩

/-! ### Claim theorems -/

/-- C4: for every endpoint, a request body that fails JSON decoding yields
exactly a 400 response carrying the decode error text in the bad-request
format, and no storage, key-manager or crypto capability is invoked. -/
theorem malformedJSON_badRequest (e : String) (env : Env) (host ksID kID : String)
    (cr : String → Except String String) (ckRes : Except String String)
    (sRes : Except String (List Nat)) (vRes : Option GoError)
    (eRes : Except String (List Nat × List Nat)) (dRes : Except String String) :
    (createKeystoreHandler env (.error e) host cr =
      ⟨writeErrorResponse env.writeErr 400 (receivedBadRequest e), noCalls⟩) ∧
    (createKeyHandler env (.error e) ksID host ckRes =
      ⟨writeErrorResponse env.writeErr 400 (receivedBadRequest e), noCalls⟩) ∧
    (signHandler env (.error e) ksID kID sRes =
      ⟨writeErrorResponse env.writeErr 400 (receivedBadRequest e), noCalls⟩) ∧
    (verifyHandler env (.error e) ksID kID vRes =
      ⟨writeErrorResponse env.writeErr 400 (receivedBadRequest e), noCalls⟩) ∧
    (encryptHandler env (.error e) ksID kID eRes =
      ⟨writeErrorResponse env.writeErr 400 (receivedBadRequest e), noCalls⟩) ∧
    (decryptHandler env (.error e) ksID kID dRes =
      ⟨writeErrorResponse env.writeErr 400 (receivedBadRequest e), noCalls⟩) ∧
    respStatus (writeErrorResponse env.writeErr 400 (receivedBadRequest e)) = 400 ∧
    respBody (writeErrorResponse none 400 (receivedBadRequest e)) =
      some (.errorMsg (receivedBadRequest e)) := by
  refine ⟨rfl, rfl, rfl, rfl, rfl, rfl, ?_, rfl⟩
  cases env.writeErr <;> rfl

/-- C3: on every provisioned endpoint, a keystore-repository open failure
and a key-manager-constructor failure each produce a 500 response carrying
the uniform `createKMSProviderFailure` message around the underlying error
text, the target capability is never invoked, and the two failure causes
produce identical writer traces. -/
theorem providerFailure_uniform_500 (e : String) (f : KMSCreatorContext → Option String)
    (w : Option String) (ksID kID host : String)
    (ck : CreateKeyReq) (sq : SignReq) (vq : VerifyReq) (eq : EncryptReq) (dq : DecryptReq)
    (ckRes : Except String String) (sRes : Except String (List Nat)) (vRes : Option GoError)
    (eRes : Except String (List Nat × List Nat)) (dRes : Except String String) :
    ((createKeyHandler ⟨some e, f, w⟩ (.ok ck) ksID host ckRes).events =
        writeErrorResponse w 500 (createKMSProviderFailure e) ∧
      (createKeyHandler ⟨some e, f, w⟩ (.ok ck) ksID host ckRes).calls.service = 0 ∧
      (createKeyHandler ⟨none, fun _ => some e, w⟩ (.ok ck) ksID host ckRes).events =
        (createKeyHandler ⟨some e, f, w⟩ (.ok ck) ksID host ckRes).events ∧
      (createKeyHandler ⟨none, fun _ => some e, w⟩ (.ok ck) ksID host ckRes).calls.service = 0) ∧
    ((signHandler ⟨some e, f, w⟩ (.ok sq) ksID kID sRes).events =
        writeErrorResponse w 500 (createKMSProviderFailure e) ∧
      (signHandler ⟨some e, f, w⟩ (.ok sq) ksID kID sRes).calls.service = 0 ∧
      (signHandler ⟨none, fun _ => some e, w⟩ (.ok sq) ksID kID sRes).events =
        (signHandler ⟨some e, f, w⟩ (.ok sq) ksID kID sRes).events ∧
      (signHandler ⟨none, fun _ => some e, w⟩ (.ok sq) ksID kID sRes).calls.service = 0) ∧
    ((verifyHandler ⟨some e, f, w⟩ (.ok vq) ksID kID vRes).events =
        writeErrorResponse w 500 (createKMSProviderFailure e) ∧
      (verifyHandler ⟨some e, f, w⟩ (.ok vq) ksID kID vRes).calls.service = 0 ∧
      (verifyHandler ⟨none, fun _ => some e, w⟩ (.ok vq) ksID kID vRes).events =
        (verifyHandler ⟨some e, f, w⟩ (.ok vq) ksID kID vRes).events ∧
      (verifyHandler ⟨none, fun _ => some e, w⟩ (.ok vq) ksID kID vRes).calls.service = 0) ∧
    ((encryptHandler ⟨some e, f, w⟩ (.ok eq) ksID kID eRes).events =
        writeErrorResponse w 500 (createKMSProviderFailure e) ∧
      (encryptHandler ⟨some e, f, w⟩ (.ok eq) ksID kID eRes).calls.service = 0 ∧
      (encryptHandler ⟨none, fun _ => some e, w⟩ (.ok eq) ksID kID eRes).events =
        (encryptHandler ⟨some e, f, w⟩ (.ok eq) ksID kID eRes).events ∧
      (encryptHandler ⟨none, fun _ => some e, w⟩ (.ok eq) ksID kID eRes).calls.service = 0) ∧
    ((decryptHandler ⟨some e, f, w⟩ (.ok dq) ksID kID dRes).events =
        writeErrorResponse w 500 (createKMSProviderFailure e) ∧
      (decryptHandler ⟨some e, f, w⟩ (.ok dq) ksID kID dRes).calls.service = 0 ∧
      (decryptHandler ⟨none, fun _ => some e, w⟩ (.ok dq) ksID kID dRes).events =
        (decryptHandler ⟨some e, f, w⟩ (.ok dq) ksID kID dRes).events ∧
      (decryptHandler ⟨none, fun _ => some e, w⟩ (.ok dq) ksID kID dRes).calls.service = 0) ∧
    respStatus (writeErrorResponse w 500 (createKMSProviderFailure e)) = 500 := by
  refine ⟨⟨rfl, rfl, rfl, rfl⟩, ⟨rfl, rfl, rfl, rfl⟩, ⟨rfl, rfl, rfl, rfl⟩,
    ⟨rfl, rfl, rfl, rfl⟩, ⟨rfl, rfl, rfl, rfl⟩, ?_⟩
  cases w <;> rfl

/-- C7: the create-keystore handler never invokes the `KMSCreator`
capability on any path (and its DTO carries no passphrase field), while
every other endpoint, once its body parses and the repository opens,
invokes the `KMSCreator`; keystore creation is the only endpoint that skips
provisioning. -/
theorem createKeystore_skips_provisioning :
    (∀ (env : Env) (parse : Except String CreateKeystoreReq) (host : String)
        (cr : String → Except String String),
      (createKeystoreHandler env parse host cr).calls.kmsCreator = []) ∧
    (∀ (f : KMSCreatorContext → Option String) (w : Option String) (ksID kID host : String)
        (ck : CreateKeyReq) (sq : SignReq) (vq : VerifyReq) (eq : EncryptReq) (dq : DecryptReq)
        (ckRes : Except String String) (sRes : Except String (List Nat)) (vRes : Option GoError)
        (eRes : Except String (List Nat × List Nat)) (dRes : Except String String),
      (createKeyHandler ⟨none, f, w⟩ (.ok ck) ksID host ckRes).calls.kmsCreator ≠ [] ∧
      (signHandler ⟨none, f, w⟩ (.ok sq) ksID kID sRes).calls.kmsCreator ≠ [] ∧
      (verifyHandler ⟨none, f, w⟩ (.ok vq) ksID kID vRes).calls.kmsCreator ≠ [] ∧
      (encryptHandler ⟨none, f, w⟩ (.ok eq) ksID kID eRes).calls.kmsCreator ≠ [] ∧
      (decryptHandler ⟨none, f, w⟩ (.ok dq) ksID kID dRes).calls.kmsCreator ≠ []) := by
  constructor
  · intro env parse host cr
    cases parse with
    | error e => rfl
    | ok request =>
      cases h : env.repoErr with
      | some e => simp [createKeystoreHandler, h]
      | none =>
        cases hc : cr request.controller <;> simp [createKeystoreHandler, h, hc]
  · intro f w ksID kID host ck sq vq eq dq ckRes sRes vRes eRes dRes
    refine ⟨?_, ?_, ?_, ?_, ?_⟩
    · cases hc : f ⟨ksID, ck.passphrase⟩ <;>
        cases ckRes <;>
          simp [createKeyHandler, prepareKMSProvider, hc]
    · cases hc : f ⟨ksID, sq.passphrase⟩ <;>
        cases sRes <;>
          simp [signHandler, prepareKMSProvider, hc]
    · cases hc : f ⟨ksID, vq.passphrase⟩ <;>
        cases hb : b64Decode vq.signature <;>
          cases vRes <;>
            simp [verifyHandler, prepareKMSProvider, hc, hb]
    · cases hc : f ⟨ksID, eq.passphrase⟩ <;>
        cases eRes <;>
          simp [encryptHandler, prepareKMSProvider, hc]
    · cases hc : f ⟨ksID, dq.passphrase⟩ <;>
        cases hb : b64Decode dq.cipherText <;>
          cases hb2 : b64Decode dq.nonce <;>
            cases dRes <;>
              simp [decryptHandler, prepareKMSProvider, hc, hb, hb2]

/-- C9: each provisioned endpoint whose body parses and whose repository
opens invokes the `KMSCreator` exactly once, with the keystore ID taken
from the URL path and the passphrase taken from the DTO's `passphrase`
field (a field the §6 wire contract does not list); an absent JSON string
field decodes to the empty string, so an absent passphrase is passed as
`""`. -/
theorem kmsCreator_context_per_request (f : KMSCreatorContext → Option String)
    (w : Option String) (ksID kID host : String)
    (ck : CreateKeyReq) (sq : SignReq) (vq : VerifyReq) (eq : EncryptReq) (dq : DecryptReq)
    (ckRes : Except String String) (sRes : Except String (List Nat)) (vRes : Option GoError)
    (eRes : Except String (List Nat × List Nat)) (dRes : Except String String) :
    (createKeyHandler ⟨none, f, w⟩ (.ok ck) ksID host ckRes).calls.kmsCreator =
      [⟨ksID, ck.passphrase⟩] ∧
    (signHandler ⟨none, f, w⟩ (.ok sq) ksID kID sRes).calls.kmsCreator =
      [⟨ksID, sq.passphrase⟩] ∧
    (verifyHandler ⟨none, f, w⟩ (.ok vq) ksID kID vRes).calls.kmsCreator =
      [⟨ksID, vq.passphrase⟩] ∧
    (encryptHandler ⟨none, f, w⟩ (.ok eq) ksID kID eRes).calls.kmsCreator =
      [⟨ksID, eq.passphrase⟩] ∧
    (decryptHandler ⟨none, f, w⟩ (.ok dq) ksID kID dRes).calls.kmsCreator =
      [⟨ksID, dq.passphrase⟩] ∧
    goStringField none = "" := by
  refine ⟨?_, ?_, ?_, ?_, ?_, rfl⟩
  · cases hc : f ⟨ksID, ck.passphrase⟩ <;>
      cases ckRes <;>
        simp [createKeyHandler, prepareKMSProvider, hc]
  · cases hc : f ⟨ksID, sq.passphrase⟩ <;>
      cases sRes <;>
        simp [signHandler, prepareKMSProvider, hc]
  · cases hc : f ⟨ksID, vq.passphrase⟩ <;>
      cases hb : b64Decode vq.signature <;>
        cases vRes <;>
          simp [verifyHandler, prepareKMSProvider, hc, hb]
  · cases hc : f ⟨ksID, eq.passphrase⟩ <;>
      cases eRes <;>
        simp [encryptHandler, prepareKMSProvider, hc]
  · cases hc : f ⟨ksID, dq.passphrase⟩ <;>
      cases hb : b64Decode dq.cipherText <;>
        cases hb2 : b64Decode dq.nonce <;>
          cases dRes <;>
            simp [decryptHandler, prepareKMSProvider, hc, hb, hb2]

/-- C5 counterexample: a valid-JSON create-keystore body whose `controller`
is the empty string is not rejected as a bad request — the handler proceeds
to the Keystore Repository's `Create` with `""` and, when storage succeeds,
responds 201, not 400. -/
theorem createKeystore_empty_controller_cex :
    (createKeystoreHandler ⟨none, fun _ => none, none⟩ (.ok ⟨""⟩) "localhost:8076"
        (fun _ => .ok "bsi5ct08vcqmquc0fn5g")).calls.keystoreCreate = [""] ∧
    respStatus (createKeystoreHandler ⟨none, fun _ => none, none⟩ (.ok ⟨""⟩) "localhost:8076"
        (fun _ => .ok "bsi5ct08vcqmquc0fn5g")).events = 201 :=
  ⟨rfl, rfl⟩

/-- C5 amended: parsing a create-keystore request requires only valid JSON;
no non-empty-controller check exists, and whenever the repository opens the
handler passes exactly the body's controller string — empty or not — to the
keystore service's `Create`. -/
theorem createKeystore_parse_no_controller_check (ctrl host : String)
    (f : KMSCreatorContext → Option String) (w : Option String)
    (cr : String → Except String String) :
    (createKeystoreHandler ⟨none, f, w⟩ (.ok ⟨ctrl⟩) host cr).calls.keystoreCreate =
      [ctrl] := by
  cases hc : cr ctrl <;> simp [createKeystoreHandler, hc]

/-- C1: once a verify request reaches `srv.Verify`, a nil error yields 200
with no body written; an error satisfying `errors.Is(err,
kmsservice.ErrInvalidSignature)` yields 200 with the verify-failure
`errMessage`; any other error yields 500 with the verify-failure
`errMessage`. -/
theorem verify_error_dispatch (f : KMSCreatorContext → Option String)
    (r : VerifyReq) (ksID kID : String) (sig : List Nat)
    (hc : f ⟨ksID, r.passphrase⟩ = none)
    (hs : b64Decode r.signature = .ok sig) :
    (respStatus (verifyHandler ⟨none, f, none⟩ (.ok r) ksID kID none).events = 200 ∧
      respBody (verifyHandler ⟨none, f, none⟩ (.ok r) ksID kID none).events = none) ∧
    (∀ err : GoError, err.isInvalidSignature = true →
      respStatus (verifyHandler ⟨none, f, none⟩ (.ok r) ksID kID (some err)).events = 200 ∧
      respBody (verifyHandler ⟨none, f, none⟩ (.ok r) ksID kID (some err)).events =
        some (.errorMsg (verifyMessageFailure err.text))) ∧
    (∀ err : GoError, err.isInvalidSignature = false →
      respStatus (verifyHandler ⟨none, f, none⟩ (.ok r) ksID kID (some err)).events = 500 ∧
      respBody (verifyHandler ⟨none, f, none⟩ (.ok r) ksID kID (some err)).events =
        some (.errorMsg (verifyMessageFailure err.text))) := by
  refine ⟨?_, ?_, ?_⟩
  · simp [verifyHandler, prepareKMSProvider, hc, hs, respStatus, respBody]
  · intro err h
    simp [verifyHandler, prepareKMSProvider, hc, hs, h, writeErrorResponse,
      respStatus, respBody]
  · intro err h
    simp [verifyHandler, prepareKMSProvider, hc, hs, h, writeErrorResponse,
      respStatus, respBody]

/-- C1 witness: concrete instantiation at the empty (validly encoded)
signature with a succeeding provider. -/
theorem verify_error_dispatch_witness :
    respStatus (verifyHandler ⟨none, fun _ => none, none⟩
        (.ok ⟨"", "test message", ""⟩) "bsi5ct08vcqmquc0fn5g" "Fm4r2iwjYnswLRZKl38W"
        (some ⟨"verify msg: invalid signature", true⟩)).events = 200 :=
  ((verify_error_dispatch (fun _ => none) ⟨"", "test message", ""⟩
    "bsi5ct08vcqmquc0fn5g" "Fm4r2iwjYnswLRZKl38W" [] rfl rfl).2.1
    ⟨"verify msg: invalid signature", true⟩ rfl).1

/-- C6: on success, create-keystore responds 201 with Location equal to the
request host followed by `/kms/keystores/` and the new keystore ID, and
create-key responds 201 with Location equal to the host followed by
`/kms/keystores/{keystoreID}/keys/{keyID}` with both parameters
substituted. -/
theorem location_headers_absolute (host ksID keyID : String)
    (f : KMSCreatorContext → Option String) (w : Option String)
    (r : CreateKeystoreReq) (ck : CreateKeyReq)
    (cr : String → Except String String)
    (hcr : cr r.controller = .ok ksID)
    (hc : f ⟨ksID, ck.passphrase⟩ = none) :
    (createKeystoreHandler ⟨none, f, w⟩ (.ok r) host cr).events =
      [.setHeader "Location" (host ++ "/kms/keystores/" ++ ksID), .writeHeader 201] ∧
    respStatus (createKeystoreHandler ⟨none, f, w⟩ (.ok r) host cr).events = 201 ∧
    respLocation (createKeystoreHandler ⟨none, f, w⟩ (.ok r) host cr).events =
      some (host ++ "/kms/keystores/" ++ ksID) ∧
    (createKeyHandler ⟨none, f, w⟩ (.ok ck) ksID host (.ok keyID)).events =
      [.setHeader "Location" (host ++ "/kms/keystores/" ++ ksID ++ "/keys/" ++ keyID),
        .writeHeader 201] ∧
    respStatus (createKeyHandler ⟨none, f, w⟩ (.ok ck) ksID host (.ok keyID)).events = 201 ∧
    respLocation (createKeyHandler ⟨none, f, w⟩ (.ok ck) ksID host (.ok keyID)).events =
      some (host ++ "/kms/keystores/" ++ ksID ++ "/keys/" ++ keyID) := by
  have h1 : (createKeystoreHandler ⟨none, f, w⟩ (.ok r) host cr).events =
      [.setHeader "Location" (host ++ "/kms/keystores/" ++ ksID), .writeHeader 201] := by
    simp [createKeystoreHandler, hcr, keystoreLocation_eq]
  have h2 : (createKeyHandler ⟨none, f, w⟩ (.ok ck) ksID host (.ok keyID)).events =
      [.setHeader "Location" (host ++ "/kms/keystores/" ++ ksID ++ "/keys/" ++ keyID),
        .writeHeader 201] := by
    simp [createKeyHandler, prepareKMSProvider, hc, keyLocation_eq]
  refine ⟨h1, ?_, ?_, h2, ?_, ?_⟩ <;> simp [h1, h2, respStatus, respLocation]

/-- C6 witness: concrete instantiation with the BDD test's host and IDs. -/
theorem location_headers_absolute_witness :
    respLocation (createKeystoreHandler ⟨none, fun _ => none, none⟩
        (.ok ⟨"did:example:123456789"⟩) "localhost:8076"
        (fun _ => .ok "bsi5ct08vcqmquc0fn5g")).events =
      some ("localhost:8076" ++ "/kms/keystores/" ++ "bsi5ct08vcqmquc0fn5g") :=
  (location_headers_absolute "localhost:8076" "bsi5ct08vcqmquc0fn5g" "Fm4r2iwjYnswLRZKl38W"
    (fun _ => none) none ⟨"did:example:123456789"⟩ ⟨"ED25519", ""⟩
    (fun _ => .ok "bsi5ct08vcqmquc0fn5g") rfl rfl).2.2.1

/-- C2 counterexample: a verify request with malformed base64 `signature`
does not terminate with 400 regardless of provider construction — when the
keystore repository fails to open, the response is the 500 provider-failure
response, because the handler provisions before it base64-decodes. -/
theorem base64_after_provisioning_cex :
    respStatus (verifyHandler ⟨some "open store error", fun _ => none, none⟩
        (.ok ⟨"!signature", "test message", ""⟩) "bsi5ct08vcqmquc0fn5g"
        "Fm4r2iwjYnswLRZKl38W" none).events = 500 ∧
    respStatus (decryptHandler ⟨some "open store error", fun _ => none, none⟩
        (.ok ⟨"!cipher", "additional data", "!nonce", ""⟩) "bsi5ct08vcqmquc0fn5g"
        "Fm4r2iwjYnswLRZKl38W" (.ok "plain text")).events = 500 :=
  ⟨rfl, rfl⟩

/-- C2 amended: JSON parsing precedes provisioning, but base64 decoding of
`signature`, `cipherText` and `nonce` happens after provisioning.  When
provider construction succeeds, a malformed base64 field terminates the
request with 400 carrying the decode error text and the crypto capability
is never invoked — though the key-manager constructor has already run; when
provider construction fails the response is the 500 provider failure. -/
theorem base64_decode_after_provisioning (f : KMSCreatorContext → Option String)
    (w : Option String) (ksID kID : String) (vq : VerifyReq) (dq : DecryptReq)
    (e e' : String) (vRes : Option GoError) (dRes : Except String String)
    (hcv : f ⟨ksID, vq.passphrase⟩ = none)
    (hcd : f ⟨ksID, dq.passphrase⟩ = none) :
    (b64Decode vq.signature = .error e →
      (verifyHandler ⟨none, f, w⟩ (.ok vq) ksID kID vRes).events =
        writeErrorResponse w 400 (receivedBadRequest e) ∧
      (verifyHandler ⟨none, f, w⟩ (.ok vq) ksID kID vRes).calls.service = 0 ∧
      (verifyHandler ⟨none, f, w⟩ (.ok vq) ksID kID vRes).calls.kmsCreator =
        [⟨ksID, vq.passphrase⟩]) ∧
    (b64Decode dq.cipherText = .error e →
      (decryptHandler ⟨none, f, w⟩ (.ok dq) ksID kID dRes).events =
        writeErrorResponse w 400 (receivedBadRequest e) ∧
      (decryptHandler ⟨none, f, w⟩ (.ok dq) ksID kID dRes).calls.service = 0 ∧
      (decryptHandler ⟨none, f, w⟩ (.ok dq) ksID kID dRes).calls.kmsCreator =
        [⟨ksID, dq.passphrase⟩]) ∧
    (b64Decode dq.cipherText = .ok [] → b64Decode dq.nonce = .error e' →
      (decryptHandler ⟨none, f, w⟩ (.ok dq) ksID kID dRes).events =
        writeErrorResponse w 400 (receivedBadRequest e') ∧
      (decryptHandler ⟨none, f, w⟩ (.ok dq) ksID kID dRes).calls.service = 0) ∧
    (∀ erep : String,
      (verifyHandler ⟨some erep, f, w⟩ (.ok vq) ksID kID vRes).events =
        writeErrorResponse w 500 (createKMSProviderFailure erep)) := by
  refine ⟨?_, ?_, ?_, ?_⟩
  · intro hb
    simp [verifyHandler, prepareKMSProvider, hcv, hb]
  · intro hb
    simp [decryptHandler, prepareKMSProvider, hcd, hb]
  · intro hb hb2
    simp [decryptHandler, prepareKMSProvider, hcd, hb, hb2]
  · intro erep
    simp [verifyHandler, prepareKMSProvider]

/-- C2 amended witness: concrete malformed inputs from the unit tests. -/
theorem base64_decode_after_provisioning_witness :
    (verifyHandler ⟨none, fun _ => none, none⟩
        (.ok ⟨"!signature", "test message", ""⟩) "bsi5ct08vcqmquc0fn5g"
        "Fm4r2iwjYnswLRZKl38W" none).calls.service = 0 :=
  ((base64_decode_after_provisioning (fun _ => none) none "bsi5ct08vcqmquc0fn5g"
    "Fm4r2iwjYnswLRZKl38W" ⟨"!signature", "test message", ""⟩
    ⟨"!cipher", "additional data", "!nonce", ""⟩ illegalB64 illegalB64 none
    (.ok "plain text") rfl rfl).1 rfl).2.1

/-! ### Trace well-formedness (claim C8) -/

/-- Number of JSON-encode attempts (body writes) in a trace. -/
def countEnc : List RWEvent → Nat
  | [] => 0
  | .encodeJSON _ _ :: rest => countEnc rest + 1
  | _ :: rest => countEnc rest

/-- Number of explicit status writes in a trace. -/
def countWH : List RWEvent → Nat
  | [] => 0
  | .writeHeader _ :: rest => countWH rest + 1
  | _ :: rest => countWH rest

/-- Number of failed encode attempts in a trace. -/
def encFailCount : List RWEvent → Nat
  | [] => 0
  | .encodeJSON _ (some _) :: rest => encFailCount rest + 1
  | _ :: rest => encFailCount rest

/-- Whether the trace contains logger output. -/
def hasLog : List RWEvent → Bool
  | [] => false
  | .logError _ :: _ => true
  | _ :: rest => hasLog rest

/-- Whether the trace consists of logger output only (nothing is written to
the response writer). -/
def onlyLogs : List RWEvent → Bool
  | [] => true
  | .logError _ :: rest => onlyLogs rest
  | _ => false

/-- After any logger event, nothing further touches the response writer. -/
def afterLogSilent : List RWEvent → Bool
  | [] => true
  | .logError _ :: rest => onlyLogs rest
  | _ :: rest => afterLogSilent rest

/-- A well-formed response trace: at most one body-encode attempt, at most
one explicit status write, every encode failure is logged, and nothing is
written to the response writer after logging. -/
def wellFormedTrace (evs : List RWEvent) : Bool :=
  decide (countEnc evs ≤ 1) && decide (countWH evs ≤ 1) &&
    (decide (encFailCount evs = 0) || hasLog evs) && afterLogSilent evs

theorem wft_writeErrorResponse (w : Option String) (s : Nat) (m : String) :
    wellFormedTrace (writeErrorResponse w s m) = true := by
  cases w <;>
    simp [writeErrorResponse, wellFormedTrace, countEnc, countWH, encFailCount,
      hasLog, afterLogSilent, onlyLogs]

theorem wft_writeResponse (w : Option String) (b : JSONBody) :
    wellFormedTrace (writeResponse w b) = true := by
  cases w <;>
    simp [writeResponse, wellFormedTrace, countEnc, countWH, encFailCount,
      hasLog, afterLogSilent, onlyLogs]

/-- C8: on every path of every handler — success, every error branch, and
every writer outcome — the response trace is well formed: at most one body
write and one status write occur, an encode failure is logged and swallowed
with no second write attempt, and the handlers are total functions (no
panic). -/
theorem response_written_at_most_once (env : Env) (host ksID kID : String)
    (pk : Except String CreateKeystoreReq) (pck : Except String CreateKeyReq)
    (ps : Except String SignReq) (pv : Except String VerifyReq)
    (pe : Except String EncryptReq) (pd : Except String DecryptReq)
    (cr : String → Except String String) (ckRes : Except String String)
    (sRes : Except String (List Nat)) (vRes : Option GoError)
    (eRes : Except String (List Nat × List Nat)) (dRes : Except String String) :
    wellFormedTrace (createKeystoreHandler env pk host cr).events = true ∧
    wellFormedTrace (createKeyHandler env pck ksID host ckRes).events = true ∧
    wellFormedTrace (signHandler env ps ksID kID sRes).events = true ∧
    wellFormedTrace (verifyHandler env pv ksID kID vRes).events = true ∧
    wellFormedTrace (encryptHandler env pe ksID kID eRes).events = true ∧
    wellFormedTrace (decryptHandler env pd ksID kID dRes).events = true := by
  have hsucc : ∀ loc : String, wellFormedTrace
      [.setHeader "Location" loc, .writeHeader 201] = true := by
    intro loc
    simp [wellFormedTrace, countEnc, countWH, encFailCount, hasLog,
      afterLogSilent, onlyLogs]
  have h200 : wellFormedTrace [.writeHeader 200] = true := by
    simp [wellFormedTrace, countEnc, countWH, encFailCount, hasLog,
      afterLogSilent, onlyLogs]
  refine ⟨?_, ?_, ?_, ?_, ?_, ?_⟩
  · cases pk with
    | error e => simp [createKeystoreHandler, wft_writeErrorResponse]
    | ok request =>
      cases h : env.repoErr with
      | some e => simp [createKeystoreHandler, h, wft_writeErrorResponse]
      | none =>
        cases hc : cr request.controller <;>
          simp [createKeystoreHandler, h, hc, wft_writeErrorResponse, hsucc]
  · cases pck with
    | error e => simp [createKeyHandler, wft_writeErrorResponse]
    | ok request =>
      cases h : env.repoErr with
      | some e => simp [createKeyHandler, prepareKMSProvider, h, wft_writeErrorResponse]
      | none =>
        cases hc : env.creatorErr ⟨ksID, request.passphrase⟩ with
        | some e =>
          simp [createKeyHandler, prepareKMSProvider, h, hc, wft_writeErrorResponse]
        | none =>
          cases ckRes <;>
            simp [createKeyHandler, prepareKMSProvider, h, hc,
              wft_writeErrorResponse, hsucc]
  · cases ps with
    | error e => simp [signHandler, wft_writeErrorResponse]
    | ok request =>
      cases h : env.repoErr with
      | some e => simp [signHandler, prepareKMSProvider, h, wft_writeErrorResponse]
      | none =>
        cases hc : env.creatorErr ⟨ksID, request.passphrase⟩ with
        | some e =>
          simp [signHandler, prepareKMSProvider, h, hc, wft_writeErrorResponse]
        | none =>
          cases sRes <;>
            simp [signHandler, prepareKMSProvider, h, hc,
              wft_writeErrorResponse, wft_writeResponse]
  · cases pv with
    | error e => simp [verifyHandler, wft_writeErrorResponse]
    | ok request =>
      cases h : env.repoErr with
      | some e => simp [verifyHandler, prepareKMSProvider, h, wft_writeErrorResponse]
      | none =>
        cases hc : env.creatorErr ⟨ksID, request.passphrase⟩ with
        | some e =>
          simp [verifyHandler, prepareKMSProvider, h, hc, wft_writeErrorResponse]
        | none =>
          cases hb : b64Decode request.signature with
          | error e =>
            simp [verifyHandler, prepareKMSProvider, h, hc, hb, wft_writeErrorResponse]
          | ok sig =>
            cases vRes <;>
              simp [verifyHandler, prepareKMSProvider, h, hc, hb,
                wft_writeErrorResponse, h200]
  · cases pe with
    | error e => simp [encryptHandler, wft_writeErrorResponse]
    | ok request =>
      cases h : env.repoErr with
      | some e => simp [encryptHandler, prepareKMSProvider, h, wft_writeErrorResponse]
      | none =>
        cases hc : env.creatorErr ⟨ksID, request.passphrase⟩ with
        | some e =>
          simp [encryptHandler, prepareKMSProvider, h, hc, wft_writeErrorResponse]
        | none =>
          rcases eRes with e | ⟨ct, nonce⟩ <;>
            simp [encryptHandler, prepareKMSProvider, h, hc,
              wft_writeErrorResponse, wft_writeResponse]
  · cases pd with
    | error e => simp [decryptHandler, wft_writeErrorResponse]
    | ok request =>
      cases h : env.repoErr with
      | some e => simp [decryptHandler, prepareKMSProvider, h, wft_writeErrorResponse]
      | none =>
        cases hc : env.creatorErr ⟨ksID, request.passphrase⟩ with
        | some e =>
          simp [decryptHandler, prepareKMSProvider, h, hc, wft_writeErrorResponse]
        | none =>
          cases hb : b64Decode request.cipherText with
          | error e =>
            simp [decryptHandler, prepareKMSProvider, h, hc, hb, wft_writeErrorResponse]
          | ok ct =>
            cases hb2 : b64Decode request.nonce with
            | error e =>
              simp [decryptHandler, prepareKMSProvider, h, hc, hb, hb2,
                wft_writeErrorResponse]
            | ok nonce =>
              cases dRes <;>
                simp [decryptHandler, prepareKMSProvider, h, hc, hb, hb2,
                  wft_writeErrorResponse, wft_writeResponse]

/-! ### Base64url properties (claim C10) -/

theorem charIdx_alphaChar : ∀ i : Nat, i < 64 → charIdx (alphaChar i) = some i := by decide

theorem charIdx_pad : charIdx '=' = none := by decide

theorem alphaChar_not_newline (i : Nat) : isB64Newline (alphaChar i) = false := by
  by_cases h : i < 64
  · have h64 : ∀ j : Nat, j < 64 → isB64Newline (alphaChar j) = false := by decide
    exact h64 i h
  · have hlen : b64Alphabet.length ≤ i := by
      have h64 : b64Alphabet.length = 64 := by decide
      omega
    have hnone : b64Alphabet[i]? = none := by
      rw [List.getElem?_eq_none_iff]
      exact hlen
    have hA : alphaChar i = 'A' := by
      simp [alphaChar, List.getD, hnone]
    rw [hA]
    rfl

theorem pad_not_newline : isB64Newline '=' = false := by decide

/-- The encoder emits only alphabet characters and `=`, never newlines, so
Go's newline skipping is the identity on encoder output. -/
theorem filter_b64EncodeBytes : ∀ bs : List Nat,
    (b64EncodeBytes bs).filter (fun c => !isB64Newline c) = b64EncodeBytes bs := by
  intro bs
  induction bs using b64EncodeBytes.induct with
  | case1 => rfl
  | case2 b0 =>
    simp [b64EncodeBytes, List.filter, alphaChar_not_newline, pad_not_newline]
  | case3 b0 b1 =>
    simp [b64EncodeBytes, List.filter, alphaChar_not_newline, pad_not_newline]
  | case4 b0 b1 b2 rest ih =>
    simp [b64EncodeBytes, b64Chunk3, List.filter_append, List.filter,
      alphaChar_not_newline, ih]

/-- Whether a decode result is an error. -/
def isErrB64 : Except String (List Nat) → Bool
  | .error _ => true
  | .ok _ => false

theorem b64_roundtrip : ∀ bs : List Nat, (∀ b ∈ bs, b < 256) →
    b64DecodeChars (b64EncodeBytes bs) = .ok bs := by
  intro bs
  induction bs using b64EncodeBytes.induct with
  | case1 => intro _; rfl
  | case2 b0 =>
    intro h
    have hb0 : b0 < 256 := h b0 (by simp)
    have e0 : charIdx (alphaChar (b0 / 4)) = some (b0 / 4) := charIdx_alphaChar _ (by omega)
    have e1 : charIdx (alphaChar ((b0 % 4) * 16)) = some ((b0 % 4) * 16) :=
      charIdx_alphaChar _ (by omega)
    simp [b64EncodeBytes, b64DecodeChars, b64DecodeQuantum, e0, e1, charIdx_pad]
    omega
  | case3 b0 b1 =>
    intro h
    have hb0 : b0 < 256 := h b0 (by simp)
    have hb1 : b1 < 256 := h b1 (by simp)
    have e0 : charIdx (alphaChar (b0 / 4)) = some (b0 / 4) := charIdx_alphaChar _ (by omega)
    have e1 : charIdx (alphaChar ((b0 % 4) * 16 + b1 / 16)) =
        some ((b0 % 4) * 16 + b1 / 16) := charIdx_alphaChar _ (by omega)
    have e2 : charIdx (alphaChar ((b1 % 16) * 4)) = some ((b1 % 16) * 4) :=
      charIdx_alphaChar _ (by omega)
    simp [b64EncodeBytes, b64DecodeChars, b64DecodeQuantum, e0, e1, e2, charIdx_pad]
    constructor <;> omega
  | case4 b0 b1 b2 rest ih =>
    intro h
    have hb0 : b0 < 256 := h b0 (by simp)
    have hb1 : b1 < 256 := h b1 (by simp)
    have hb2 : b2 < 256 := h b2 (by simp)
    have hrest : ∀ b ∈ rest, b < 256 := fun b hb => h b (by simp [hb])
    have e0 : charIdx (alphaChar (b0 / 4)) = some (b0 / 4) := charIdx_alphaChar _ (by omega)
    have e1 : charIdx (alphaChar ((b0 % 4) * 16 + b1 / 16)) =
        some ((b0 % 4) * 16 + b1 / 16) := charIdx_alphaChar _ (by omega)
    have e2 : charIdx (alphaChar ((b1 % 16) * 4 + b2 / 64)) =
        some ((b1 % 16) * 4 + b2 / 64) := charIdx_alphaChar _ (by omega)
    have e3 : charIdx (alphaChar (b2 % 64)) = some (b2 % 64) := charIdx_alphaChar _ (by omega)
    simp [b64EncodeBytes, b64Chunk3, b64DecodeChars, b64DecodeQuantum, e0, e1, e2, e3,
      ih hrest]
    refine ⟨?_, ?_, ?_⟩ <;> omega

theorem b64_len_reject_aux (n : Nat) : ∀ cs : List Char, cs.length ≤ n →
    cs.length % 4 ≠ 0 → isErrB64 (b64DecodeChars cs) = true := by
  induction n with
  | zero =>
    intro cs hlen h4
    have : cs = [] := List.length_eq_zero.mp (Nat.le_zero.mp hlen)
    subst this
    simp at h4
  | succ n ih =>
    intro cs hlen h4
    match cs with
    | [] => simp at h4
    | [a] => rfl
    | [a, b] => rfl
    | [a, b, c] => rfl
    | c0 :: c1 :: c2 :: c3 :: rest =>
      have h4r : rest.length % 4 ≠ 0 := by
        simp [List.length_cons] at h4 ⊢
        omega
      have hlr : rest.length ≤ n := by
        simp [List.length_cons] at hlen
        omega
      have hrest := ih rest hlr h4r
      cases hq : b64DecodeQuantum rest.isEmpty c0 c1 c2 c3 with
      | error e => simp [b64DecodeChars, hq, isErrB64]
      | ok bs =>
        cases hr : b64DecodeChars rest with
        | error e => simp [b64DecodeChars, hq, hr, isErrB64]
        | ok more =>
          rw [hr] at hrest
          simp [isErrB64] at hrest

theorem quantum_err_of_bad (l : Bool) (c0 c1 c2 c3 c : Char)
    (hmem : c ∈ [c0, c1, c2, c3]) (hn : charIdx c = none) (hne : c ≠ '=') :
    b64DecodeQuantum l c0 c1 c2 c3 = .error illegalB64 := by
  simp only [List.mem_cons, List.not_mem_nil, or_false] at hmem
  rcases hmem with h | h | h | h <;> subst h
  · cases h1 : charIdx c1 <;> simp [b64DecodeQuantum, hn, h1]
  · cases h0 : charIdx c0 <;> simp [b64DecodeQuantum, hn, h0]
  · cases h0 : charIdx c0 <;> cases h1 : charIdx c1 <;>
      simp [b64DecodeQuantum, hn, h0, h1, hne]
  · cases h0 : charIdx c0 <;> cases h1 : charIdx c1 <;> cases h2 : charIdx c2 <;>
      simp [b64DecodeQuantum, hn, h0, h1, h2, hne]

theorem b64_badchar_reject_aux (n : Nat) : ∀ (cs : List Char) (c : Char), cs.length ≤ n →
    c ∈ cs → charIdx c = none → c ≠ '=' → isErrB64 (b64DecodeChars cs) = true := by
  induction n with
  | zero =>
    intro cs c hlen hmem _ _
    have : cs = [] := List.length_eq_zero.mp (Nat.le_zero.mp hlen)
    subst this
    simp at hmem
  | succ n ih =>
    intro cs c hlen hmem hn hne
    match cs with
    | [] => simp at hmem
    | [a] => rfl
    | [a, b] => rfl
    | [a, b, d] => rfl
    | c0 :: c1 :: c2 :: c3 :: rest =>
      by_cases hq4 : c ∈ [c0, c1, c2, c3]
      · have := quantum_err_of_bad rest.isEmpty c0 c1 c2 c3 c hq4 hn hne
        simp [b64DecodeChars, this, isErrB64]
      · have hrmem : c ∈ rest := by
          simp only [List.mem_cons, List.not_mem_nil, or_false] at hmem hq4
          tauto
        have hlr : rest.length ≤ n := by
          simp [List.length_cons] at hlen
          omega
        have hrest := ih rest c hlr hrmem hn hne
        cases hq : b64DecodeQuantum rest.isEmpty c0 c1 c2 c3 with
        | error e => simp [b64DecodeChars, hq, isErrB64]
        | ok bs =>
          cases hr : b64DecodeChars rest with
          | error e => simp [b64DecodeChars, hq, hr, isErrB64]
          | ok more =>
            rw [hr] at hrest
            simp [isErrB64] at hrest

theorem b64_encode_len : ∀ bs : List Nat, (b64EncodeBytes bs).length % 4 = 0 := by
  intro bs
  induction bs using b64EncodeBytes.induct with
  | case1 => rfl
  | case2 b0 => simp [b64EncodeBytes]
  | case3 b0 b1 => simp [b64EncodeBytes]
  | case4 b0 b1 b2 rest ih =>
    simp [b64EncodeBytes, b64Chunk3, List.length_append, ih]
    omega

/-- C10: the wire fields use padded URL-safe base64: decode after encode is
the identity on every byte string; encoded output length is always a
multiple of 4 (padded); an input whose content — after dropping the `\r`
and `\n` characters Go's decoder ignores, e.g. `"QQ==\n"` still decodes —
is not a multiple of 4 long (unpadded) is a decode error; an input
containing a character specific to the standard alphabet (`+` or `/`) is a
decode error; and the sign and encrypt success responses carry exactly
`b64Encode` of the capability's bytes. -/
theorem base64url_wire_contract :
    (∀ bs : List Nat, (∀ b ∈ bs, b < 256) → b64Decode (b64Encode bs) = .ok bs) ∧
    (∀ bs : List Nat, (b64Encode bs).data.length % 4 = 0) ∧
    (∀ s : String, (s.data.filter (fun c => !isB64Newline c)).length % 4 ≠ 0 →
      isErrB64 (b64Decode s) = true) ∧
    b64Decode "QQ==\n" = .ok [65] ∧
    (∀ s : String, ∀ c ∈ s.data, c = '+' ∨ c = '/' → isErrB64 (b64Decode s) = true) ∧
    (∀ (f : KMSCreatorContext → Option String) (w : Option String) (r : SignReq)
        (ksID kID : String) (sig : List Nat), f ⟨ksID, r.passphrase⟩ = none →
      (signHandler ⟨none, f, w⟩ (.ok r) ksID kID (.ok sig)).events =
        writeResponse w (.signatureResp (b64Encode sig))) ∧
    (∀ (f : KMSCreatorContext → Option String) (w : Option String) (r : EncryptReq)
        (ksID kID : String) (ct nonce : List Nat), f ⟨ksID, r.passphrase⟩ = none →
      (encryptHandler ⟨none, f, w⟩ (.ok r) ksID kID (.ok (ct, nonce))).events =
        writeResponse w (.encryptResp (b64Encode ct) (b64Encode nonce))) := by
  refine ⟨?_, ?_, ?_, rfl, ?_, ?_, ?_⟩
  · intro bs h
    show b64DecodeChars ((b64EncodeBytes bs).filter (fun c => !isB64Newline c)) = .ok bs
    rw [filter_b64EncodeBytes]
    exact b64_roundtrip bs h
  · intro bs
    exact b64_encode_len bs
  · intro s h
    exact b64_len_reject_aux (s.data.filter (fun c => !isB64Newline c)).length
      (s.data.filter (fun c => !isB64Newline c)) le_rfl h
  · intro s c hmem hc
    have hn : charIdx c = none := by rcases hc with h | h <;> subst h <;> decide
    have hne : c ≠ '=' := by rcases hc with h | h <;> subst h <;> decide
    have hmem' : c ∈ s.data.filter (fun c => !isB64Newline c) := by
      refine List.mem_filter.mpr ⟨hmem, ?_⟩
      rcases hc with h | h <;> subst h <;> decide
    exact b64_badchar_reject_aux (s.data.filter (fun c => !isB64Newline c)).length
      (s.data.filter (fun c => !isB64Newline c)) c le_rfl hmem' hn hne
  · intro f w r ksID kID sig hc
    simp [signHandler, prepareKMSProvider, hc]
  · intro f w r ksID kID ct nonce hc
    simp [encryptHandler, prepareKMSProvider, hc]

/-- C10 witness: round trip at the unit tests' signature bytes, and
rejection of the tests' malformed `!signature` input. -/
theorem base64url_wire_contract_witness :
    b64Decode (b64Encode [115, 105, 103]) = .ok [115, 105, 103] :=
  base64url_wire_contract.1 [115, 105, 103] (by decide)

/-- C7 witness: concrete create-keystore request never reaches the
key-manager constructor, while a concrete create-key request does. -/
theorem createKeystore_skips_provisioning_witness :
    (createKeystoreHandler ⟨none, fun _ => none, none⟩ (.ok ⟨"did:example:123456789"⟩)
        "localhost:8076" (fun _ => .ok "bsi5ct08vcqmquc0fn5g")).calls.kmsCreator = [] ∧
    (createKeyHandler ⟨none, fun _ => none, none⟩ (.ok ⟨"ED25519", ""⟩)
        "bsi5ct08vcqmquc0fn5g" "localhost:8076"
        (.ok "Fm4r2iwjYnswLRZKl38W")).calls.kmsCreator ≠ [] :=
  ⟨createKeystore_skips_provisioning.1 ⟨none, fun _ => none, none⟩
      (.ok ⟨"did:example:123456789"⟩) "localhost:8076" (fun _ => .ok "bsi5ct08vcqmquc0fn5g"),
    (createKeystore_skips_provisioning.2 (fun _ => none) none "bsi5ct08vcqmquc0fn5g"
      "Fm4r2iwjYnswLRZKl38W" "localhost:8076" ⟨"ED25519", ""⟩ ⟨"test message", ""⟩
      ⟨"", "test message", ""⟩ ⟨"test message", "additional data", ""⟩
      ⟨"", "additional data", "", ""⟩ (.ok "Fm4r2iwjYnswLRZKl38W") (.ok [115])
      none (.ok ([99], [110])) (.ok "plain text")).1⟩
